import Mathlib

/-!
Shallow embedding of the VanillaQuery engine (src/vanilla-query.ts):
the per-key query lifecycle state machine, the cache store, the retry
algorithm, the subscriber notification protocol and the mutation engine.

JavaScript's run-to-completion model is embedded as explicit state
passing: each public operation maps an engine state (`VanillaQuery`)
to a new engine state plus the list of observable events it emitted
(subscriber notifications and lifecycle callback invocations).
Producers are modelled as functions from the cumulative per-key
invocation index to a result; the engine state carries a ghost
per-key invocation counter so producer call counts are observable.
Awaiting the inter-retry delay has no observable effect in a
run-to-completion model, so the delay computation is modelled
(`delayFor`) but emits no event.
-/

/-- JavaScript value, as far as the engine inspects values: it only ever
branches on truthiness, so a small universe with the standard JS
truthiness table suffices. `undef` doubles as the absent/`undefined`
value of optional fields. -/
inductive JSVal where
  | undef : JSVal
  | null : JSVal
  | bool (b : Bool) : JSVal
  | num (n : Int) : JSVal
  | str (s : String) : JSVal
deriving DecidableEq, Repr

/-- JS truthiness: `undefined`, `null`, `false`, `0` and `""` are falsy. -/
def JSVal.truthy : JSVal → Bool
  | .undef => false
  | .null => false
  | .bool b => b
  | .num n => n != 0
  | .str s => s != ""

deriving instance DecidableEq for Except

/-- The status union `'idle' | 'loading' | 'success' | 'error'`. -/
inductive Status where
  | idle : Status
  | loading : Status
  | success : Status
  | error : Status
deriving DecidableEq, Repr

/-- QueryState: per-key observable lifecycle state. Optional fields of the
TypeScript interface (`dataUpdatedAt?`, `errorUpdatedAt?`, `fetchCount?`)
are `Option Nat` with `none` for absent/`undefined`; `data : T | undefined`
is a `JSVal` with `.undef` for `undefined`; `error : Error | null` is
`Option JSVal` with `none` for `null`. -/
structure QueryState where
  data : JSVal
  error : Option JSVal
  status : Status
  isLoading : Bool
  isError : Bool
  isSuccess : Bool
  isFetching : Bool
  dataUpdatedAt : Option Nat
  errorUpdatedAt : Option Nat
  fetchCount : Option Nat
deriving DecidableEq, Repr

/-- CacheEntry: `{ data, timestamp }`. -/
structure CacheEntry where
  data : JSVal
  timestamp : Nat
deriving DecidableEq, Repr

/-- The `retry` option: `number | boolean`. -/
inductive RetryOpt where
  | rbool (b : Bool) : RetryOpt
  | rnum (n : Nat) : RetryOpt
deriving DecidableEq, Repr

/-- The `retryDelay` option: `number | ((attempt: number) => number)`. -/
inductive RetryDelay where
  | fixed (ms : Nat) : RetryDelay
  | fn (f : Nat → Nat) : RetryDelay

/-- The retry-delay resolution in the retry loops:
`typeof retryDelay === 'function' ? retryDelay(attempt) : retryDelay`. -/
def delayFor : RetryDelay → Nat → Nat
  | .fixed ms, _ => ms
  | .fn f, attempt => f attempt

/-- The default exponential backoff: `min(1000 * 2 ** attempt, 30000)`. -/
def defaultRetryDelay : RetryDelay :=
  .fn (fun attempt => Nat.min (1000 * 2 ^ attempt) 30000)

/-- Fully-resolved query options (`Required<QueryOptions>`). The lifecycle
callbacks are modelled by presence (`true` = configured, `false` = the
`null` default); a configured callback is a total observer that emits an
event when invoked. `refetchInterval : number | false` is `Option Nat`
with `none` for `false`. -/
structure QueryOptions where
  enabled : Bool
  staleTime : Nat
  cacheTime : Nat
  retry : RetryOpt
  retryDelay : RetryDelay
  onSuccess : Bool
  onError : Bool
  onSettled : Bool
  refetchOnWindowFocus : Bool
  refetchInterval : Option Nat
  refetchIntervalInBackground : Bool
  keepPreviousData : Bool

/-- Caller-supplied query options: every field optional (absent fields
fall back to the defaults in `resolveOptions`). -/
structure QueryOptionsIn where
  enabled : Option Bool
  staleTime : Option Nat
  cacheTime : Option Nat
  retry : Option RetryOpt
  retryDelay : Option RetryDelay
  onSuccess : Option Bool
  onError : Option Bool
  onSettled : Option Bool
  refetchOnWindowFocus : Option Bool
  refetchInterval : Option (Option Nat)
  refetchIntervalInBackground : Option Bool
  keepPreviousData : Option Bool

/-- The empty options object `{}`. -/
def QueryOptionsIn.empty : QueryOptionsIn :=
  ⟨none, none, none, none, none, none, none, none, none, none, none, none⟩

/-- The `{...defaultOptions, ...options}` merge of `useQuery` and
`prefetchQuery` (both declare the identical `defaultOptions` literal):
`enabled: true`, `staleTime: 0`, `cacheTime: 5 * 60 * 1000`, `retry: 3`,
exponential `retryDelay`, null callbacks, `refetchOnWindowFocus: true`,
`refetchInterval: false`, `refetchIntervalInBackground: false`,
`keepPreviousData: false`. -/
def resolveOptions (o : QueryOptionsIn) : QueryOptions where
  enabled := o.enabled.getD true
  staleTime := o.staleTime.getD 0
  cacheTime := o.cacheTime.getD (5 * 60 * 1000)
  retry := o.retry.getD (.rnum 3)
  retryDelay := o.retryDelay.getD defaultRetryDelay
  onSuccess := o.onSuccess.getD false
  onError := o.onError.getD false
  onSettled := o.onSettled.getD false
  refetchOnWindowFocus := o.refetchOnWindowFocus.getD true
  refetchInterval := o.refetchInterval.getD none
  refetchIntervalInBackground := o.refetchIntervalInBackground.getD false
  keepPreviousData := o.keepPreviousData.getD false

/-- QueryConfig: `{ queryFn, options }`. The producer is a function of the
ghost cumulative invocation index for its key, returning either resolved
data or the rejection value. -/
structure QueryConfig where
  queryFn : Nat → Except JSVal JSVal
  options : QueryOptions

/-- Association-list embedding of a JS `Map` keyed by strings:
`Map.get`. -/
def alookup {α : Type} : List (String × α) → String → Option α
  | [], _ => none
  | (k', v) :: t, k => if k' = k then some v else alookup t k

/-- JS `Map.set`: overwrite in place if the key is present, else append. -/
def aset {α : Type} : List (String × α) → String → α → List (String × α)
  | [], k, v => [(k, v)]
  | (k', v') :: t, k, v =>
      if k' = k then (k, v) :: t else (k', v') :: aset t k v

/-- JS `Map.delete`: remove the key's entries. -/
def aerase {α : Type} : List (String × α) → String → List (String × α)
  | [], _ => []
  | (k', v') :: t, k => if k' = k then aerase t k else (k', v') :: aerase t k

theorem alookup_aset_self {α : Type} (l : List (String × α)) (k : String) (v : α) :
    alookup (aset l k v) k = some v := by
  induction l with
  | nil => simp [aset, alookup]
  | cons hd t ih =>
      by_cases h : hd.1 = k
      · simp [aset, alookup, h]
      · simp [aset, alookup, h, ih]

theorem alookup_aset_ne {α : Type} (l : List (String × α)) (k k' : String) (v : α)
    (h : k ≠ k') : alookup (aset l k v) k' = alookup l k' := by
  induction l with
  | nil => simp [aset, alookup, h]
  | cons hd t ih =>
      by_cases hk : hd.1 = k
      · simp [aset, alookup, hk, h]
      · simp [aset, alookup, hk, ih]

theorem alookup_aerase_self {α : Type} (l : List (String × α)) (k : String) :
    alookup (aerase l k) k = none := by
  induction l with
  | nil => simp [aerase, alookup]
  | cons hd t ih =>
      by_cases h : hd.1 = k
      · simp [aerase, h, ih]
      · simp [aerase, alookup, h, ih]

theorem alookup_aerase_ne {α : Type} (l : List (String × α)) (k k' : String)
    (h : k ≠ k') : alookup (aerase l k) k' = alookup l k' := by
  induction l with
  | nil => simp [aerase]
  | cons hd t ih =>
      by_cases hk : hd.1 = k
      · simp [aerase, alookup, hk, ih, h]
      · simp [aerase, alookup, hk, ih]

/-- Observable events emitted by engine operations: subscriber
notifications (`notify key callbackId stateSnapshot`), lifecycle callback
invocations, the deferred auto-fetch scheduled by `useQuery`
(`setTimeout(..., 0)`), the focus listener registration, and the start of
a recurring interval timer. -/
inductive Event where
  | notify (key : String) (cb : Nat) (st : QueryState) : Event
  | cbSuccess (key : String) (data : JSVal) : Event
  | cbError (key : String) (error : JSVal) : Event
  | cbSettled (key : String) (data : Option JSVal) (error : Option JSVal) : Event
  | autoFetchScheduled (key : String) : Event
  | focusListenerAdded (key : String) : Event
  | intervalStarted (key : String) (handle : Nat) : Event
deriving DecidableEq, Repr

/-- The engine state: the four keyed tables of the `VanillaQuery` class
(`cache`, `subscribers`, `queryConfigs`, `queryStates`), the optional
`intervals` map (key to most recently created interval handle), plus:
`activeTimers` — the ghost set of live interval timers created by
`setInterval` and not yet cancelled by `clearInterval` (key it was
created for, handle); `nextHandle` — the allocator for timer handles;
`producerCalls` — the ghost per-key cumulative count of producer
invocations; `now` — the value `Date.now()` returns. Subscribers are
identified by numeric callback ids; a per-key subscriber list with no
duplicates models the JS `Set`. -/
structure VanillaQuery where
  cache : List (String × CacheEntry)
  subscribers : List (String × List Nat)
  queryConfigs : List (String × QueryConfig)
  queryStates : List (String × QueryState)
  intervals : List (String × Nat)
  activeTimers : List (String × Nat)
  nextHandle : Nat
  producerCalls : List (String × Nat)
  now : Nat

/-- The freshly constructed engine: all tables empty. -/
def VanillaQuery.empty : VanillaQuery :=
  ⟨[], [], [], [], [], [], 0, [], 0⟩

/-- The default idle snapshot `getQueryState` returns for unknown keys
(its object literal has no `dataUpdatedAt`/`errorUpdatedAt`/`fetchCount`
fields, so they are absent). -/
def defaultIdleState : QueryState :=
  { data := .undef, error := none, status := .idle, isLoading := false,
    isError := false, isSuccess := false, isFetching := false,
    dataUpdatedAt := none, errorUpdatedAt := none, fetchCount := none }

/-- `getQueryState(queryKey)`: the stored state, or the default idle
snapshot when the key is unknown. -/
def getQueryState (vq : VanillaQuery) (queryKey : String) : QueryState :=
  (alookup vq.queryStates queryKey).getD defaultIdleState

/-- `getQueryData(queryKey)`: `cached ? cached.data : undefined`. -/
def getQueryData (vq : VanillaQuery) (queryKey : String) : Option JSVal :=
  (alookup vq.cache queryKey).map CacheEntry.data

/-- The subscriber set registered for a key (empty when absent). -/
def subscribersOf (vq : VanillaQuery) (queryKey : String) : List Nat :=
  (alookup vq.subscribers queryKey).getD []

/-- Ghost read: how many times the key's producer has been invoked. -/
def callCount (vq : VanillaQuery) (queryKey : String) : Nat :=
  (alookup vq.producerCalls queryKey).getD 0

/-- The events `notifySubscribers(queryKey, state)` emits: one delivery of
the snapshot per registered callback. A throwing callback is caught and
logged, so delivery always reaches every callback. -/
def notifyEvents (subs : List Nat) (queryKey : String) (st : QueryState) :
    List Event :=
  subs.map (fun cb => Event.notify queryKey cb st)

/-- Resolution of `maxRetries` from the `retry` option:
`typeof retry === 'boolean' ? (retry ? 3 : 0) : retry`. -/
def resolveMaxRetries : RetryOpt → Nat
  | .rbool true => 3
  | .rbool false => 0
  | .rnum n => n

/-- Is the attempt result a success. -/
def exceptIsOk : Except JSVal JSVal → Bool
  | .ok _ => true
  | .error _ => false

/-- The retry loop of `fetchQuery` and `mutate`, with the loop's
decreasing measure `maxRetries - attempt` made an explicit structural
fuel argument (so the function evaluates by kernel reduction): while the
result is a failure and fuel remains, bump the attempt number and
re-invoke. `f i` is the outcome of attempt number `i`. -/
def runRetriesFuel (f : Nat → Except JSVal JSVal) :
    Nat → Nat → Except JSVal JSVal → Nat × Except JSVal JSVal
  | _, attempt, .ok v => (attempt, .ok v)
  | 0, attempt, .error e => (attempt, .error e)
  | fuel + 1, attempt, .error _ =>
      runRetriesFuel f fuel (attempt + 1) (f (attempt + 1))

/-- The retry loop shared by `fetchQuery` and `mutate`:
`while (!result.success && attempt < maxRetries) { attempt++; result = perform() }`,
where `f i` is the outcome of attempt number `i` (`i = 0` is the initial
call made before the loop, `result` its outcome). Returns the final
attempt number together with the final result; the total number of
invocations is the final attempt number plus one. -/
def runRetries (f : Nat → Except JSVal JSVal) (maxRetries attempt : Nat)
    (result : Except JSVal JSVal) : Nat × Except JSVal JSVal :=
  runRetriesFuel f (maxRetries - attempt) attempt result

theorem runRetries_ok (f : Nat → Except JSVal JSVal) (m a : Nat) (v : JSVal) :
    runRetries f m a (.ok v) = (a, .ok v) := by
  unfold runRetries
  cases m - a <;> simp [runRetriesFuel]

theorem runRetries_error_stop (f : Nat → Except JSVal JSVal) (m a : Nat)
    (e : JSVal) (h : ¬ a < m) :
    runRetries f m a (.error e) = (a, .error e) := by
  unfold runRetries
  rw [show m - a = 0 by omega]
  rfl

theorem runRetries_error_step (f : Nat → Except JSVal JSVal) (m a : Nat)
    (e : JSVal) (h : a < m) :
    runRetries f m a (.error e) = runRetries f m (a + 1) (f (a + 1)) := by
  unfold runRetries
  rw [show m - a = (m - (a + 1)) + 1 by omega]
  rfl

/-- When every attempt fails, the loop walks from attempt `a` up to the
retry budget and stops there with the budget-indexed failure. -/
theorem runRetries_allFail (f : Nat → Except JSVal JSVal) (m : Nat)
    (hfail : ∀ i, exceptIsOk (f i) = false) :
    ∀ a, a ≤ m → runRetries f m a (f a) = (m, f m) := by
  have key : ∀ d a, m - a = d → a ≤ m → runRetries f m a (f a) = (m, f m) := by
    intro d
    induction d with
    | zero =>
        intro a hd hle
        have ha : a = m := by omega
        subst ha
        cases hfm : f a with
        | ok v =>
            have h := hfail a
            rw [hfm] at h
            simp [exceptIsOk] at h
        | error e =>
            exact runRetries_error_stop _ _ _ _ (by omega)
    | succ d ih =>
        intro a hd hle
        have hlt : a < m := by omega
        cases hfa : f a with
        | ok v =>
            have h := hfail a
            rw [hfa] at h
            simp [exceptIsOk] at h
        | error e =>
            rw [runRetries_error_step f m a e hlt]
            exact ih (a + 1) (by omega) (by omega)
  intro a hle
  exact key (m - a) a rfl hle

/-- When the first success is at attempt `j` within the budget, the loop
stops at attempt `j` with that success. -/
theorem runRetries_firstSuccess (f : Nat → Except JSVal JSVal) (m j : Nat)
    (v : JSVal) (hj : j ≤ m) (hbefore : ∀ i, i < j → exceptIsOk (f i) = false)
    (hok : f j = .ok v) :
    ∀ a, a ≤ j → runRetries f m a (f a) = (j, .ok v) := by
  have key : ∀ d a, j - a = d → a ≤ j → runRetries f m a (f a) = (j, .ok v) := by
    intro d
    induction d with
    | zero =>
        intro a hd hle
        have ha : a = j := by omega
        subst ha
        rw [hok]
        exact runRetries_ok _ _ _ _
    | succ d ih =>
        intro a hd hle
        have haj : a < j := by omega
        cases hfa : f a with
        | ok w =>
            have h := hbefore a haj
            rw [hfa] at h
            simp [exceptIsOk] at h
        | error e =>
            have ham : a < m := by omega
            rw [runRetries_error_step f m a e ham]
            exact ih (a + 1) (by omega) (by omega)
  intro a hle
  exact key (j - a) a rfl hle

/-- The state written at the start of `fetchQuery` (lines 301-311): status
and `isLoading` are decided by JS truthiness of the current `data`
(`currentState?.data ? 'success' : 'loading'`, `isLoading: !currentState?.data`),
`isFetching` is set, and `fetchCount` becomes
`(currentState?.fetchCount || 0) + 1`; all other fields are spread from
the current state. -/
def fetchStart (currentState : QueryState) : QueryState :=
  { currentState with
    status := if currentState.data.truthy then .success else .loading
    isLoading := !currentState.data.truthy
    isFetching := true
    fetchCount := some (currentState.fetchCount.getD 0 + 1) }

/-- The `successState` literal of the fetch success branch: it mentions
neither `errorUpdatedAt` nor `fetchCount`, so both become absent. -/
def successState (v : JSVal) (now : Nat) : QueryState :=
  { data := v, error := none, status := .success, isLoading := false,
    isError := false, isSuccess := true, isFetching := false,
    dataUpdatedAt := some now, errorUpdatedAt := none, fetchCount := none }

/-- The `errorState` of the fetch failure branch: the fetch-start state
spread with error fields (`error: result.error || null`), keeping the
prior `data`, the bumped `fetchCount` and the old `dataUpdatedAt`. -/
def errorStateOf (newState : QueryState) (e : JSVal) (now : Nat) : QueryState :=
  { newState with
    status := .error
    error := if e.truthy then some e else none
    isLoading := false
    isError := true
    isSuccess := false
    isFetching := false
    errorUpdatedAt := some now }

/-- The body of `fetchQuery` once the config and the current state have
been found: write the fetch-start state, notify, run the producer with
retries, then write and notify either the success state (also writing the
cache and firing `onSuccess`/`onSettled`, returning the data) or the
error state (cache untouched, firing `onError`/`onSettled` only when the
rejection value is truthy, returning nothing). -/
def fetchBody (vq : VanillaQuery) (queryKey : String) (config : QueryConfig)
    (currentState : QueryState) : VanillaQuery × List Event × Option JSVal :=
  let options := config.options
  let newState := fetchStart currentState
  let vq1 := { vq with queryStates := aset vq.queryStates queryKey newState }
  let startEvents := notifyEvents (subscribersOf vq queryKey) queryKey newState
  let calls0 := callCount vq queryKey
  let pair := runRetries (fun i => config.queryFn (calls0 + i))
    (resolveMaxRetries options.retry) 0 (config.queryFn (calls0 + 0))
  let vq2 := { vq1 with
    producerCalls := aset vq1.producerCalls queryKey (calls0 + pair.1 + 1) }
  match pair.2 with
  | .ok v =>
      let vq3 := { vq2 with
        cache := aset vq2.cache queryKey ⟨v, vq.now⟩
        queryStates := aset vq2.queryStates queryKey (successState v vq.now) }
      let events := startEvents
        ++ notifyEvents (subscribersOf vq queryKey) queryKey
            (successState v vq.now)
        ++ (if options.onSuccess then [Event.cbSuccess queryKey v] else [])
        ++ (if options.onSettled then [Event.cbSettled queryKey (some v) none]
            else [])
      (vq3, events, some v)
  | .error e =>
      let errorState := errorStateOf newState e vq.now
      let vq3 := { vq2 with
        queryStates := aset vq2.queryStates queryKey errorState }
      let events := startEvents
        ++ notifyEvents (subscribersOf vq queryKey) queryKey errorState
        ++ (if e.truthy then
              (if options.onError then [Event.cbError queryKey e] else [])
              ++ (if options.onSettled then
                    [Event.cbSettled queryKey none (some e)] else [])
            else [])
      (vq3, events, none)

/-- `fetchQuery(queryKey)`: resolves with nothing when no config is
registered or no query state exists for the key; otherwise runs the
fetch body. -/
def fetchQuery (vq : VanillaQuery) (queryKey : String) :
    VanillaQuery × List Event × Option JSVal :=
  match alookup vq.queryConfigs queryKey with
  | none => (vq, [], none)
  | some config =>
      match alookup vq.queryStates queryKey with
      | none => (vq, [], none)
      | some currentState => fetchBody vq queryKey config currentState

/-- `refetchQuery(queryKey)`: delegates to `fetchQuery`. -/
def refetchQuery (vq : VanillaQuery) (queryKey : String) :
    VanillaQuery × List Event × Option JSVal :=
  fetchQuery vq queryKey

/-- `invalidateQuery(queryKey)`: deletes the cache entry, then fetches. -/
def invalidateQuery (vq : VanillaQuery) (queryKey : String) :
    VanillaQuery × List Event × Option JSVal :=
  fetchQuery { vq with cache := aerase vq.cache queryKey } queryKey

/-- `prefetchQuery(queryKey, queryFn, options)`: stores the config (same
option defaulting as `useQuery`) and immediately delegates to
`fetchQuery` — with no state seeding and no deferred scheduling. -/
def prefetchQuery (vq : VanillaQuery) (queryKey : String)
    (queryFn : Nat → Except JSVal JSVal) (options : QueryOptionsIn) :
    VanillaQuery × List Event × Option JSVal :=
  let finalOptions := resolveOptions options
  let vq1 := { vq with
    queryConfigs := aset vq.queryConfigs queryKey ⟨queryFn, finalOptions⟩ }
  fetchQuery vq1 queryKey

/-- `setQueryData(queryKey, data)`: writes the cache and a synthetic
success state, notifies subscribers, and returns the data. -/
def setQueryData (vq : VanillaQuery) (queryKey : String) (data : JSVal) :
    VanillaQuery × List Event × JSVal :=
  let newState : QueryState :=
    { data := data, error := none, status := .success, isLoading := false,
      isError := false, isSuccess := true, isFetching := false,
      dataUpdatedAt := some vq.now, errorUpdatedAt := none,
      fetchCount := none }
  let vq1 := { vq with
    cache := aset vq.cache queryKey ⟨data, vq.now⟩
    queryStates := aset vq.queryStates queryKey newState }
  (vq1, notifyEvents (subscribersOf vq queryKey) queryKey newState, data)

/-- `subscribeToQuery(queryKey, callback)`: adds the callback to the key's
set (created on demand; `Set.add` ignores an already-present member) and
immediately delivers the current state to the new callback. -/
def subscribeToQuery (vq : VanillaQuery) (queryKey : String) (cb : Nat) :
    VanillaQuery × List Event :=
  let old := subscribersOf vq queryKey
  let newSubs := if cb ∈ old then old else old ++ [cb]
  ({ vq with subscribers := aset vq.subscribers queryKey newSubs },
   [Event.notify queryKey cb (getQueryState vq queryKey)])

/-- The initial state `useQuery` seeds for a key with no state yet (this
literal does carry `dataUpdatedAt: 0`, `errorUpdatedAt: 0` and
`fetchCount: 0`, unlike the default snapshot of `getQueryState`). -/
def initialQueryState : QueryState :=
  { data := .undef, error := none, status := .idle, isLoading := false,
    isError := false, isSuccess := false, isFetching := false,
    dataUpdatedAt := some 0, errorUpdatedAt := some 0, fetchCount := some 0 }

/-- Truthiness of the `refetchInterval` option inside
`if (finalOptions.refetchInterval && finalOptions.enabled)`: `false` and
`0` are falsy. -/
def intervalTruthy : Option Nat → Bool
  | none => false
  | some n => n != 0

/-- `useQuery(queryKey, queryFn, options)`: resolves the options, stores
the config (last registration wins), seeds the state to idle if absent,
schedules the deferred auto-fetch when enabled (`setTimeout(..., 0)` — an
event, not an immediate fetch), registers the focus listener when
configured, and when `refetchInterval` is truthy and enabled starts a new
interval timer and records its handle in the `intervals` map — without
cancelling any previously recorded handle for the key. -/
def useQuery (vq : VanillaQuery) (queryKey : String)
    (queryFn : Nat → Except JSVal JSVal) (options : QueryOptionsIn) :
    VanillaQuery × List Event :=
  let finalOptions := resolveOptions options
  let vq1 := { vq with
    queryConfigs := aset vq.queryConfigs queryKey ⟨queryFn, finalOptions⟩ }
  let vq2 :=
    if (alookup vq1.queryStates queryKey).isSome then vq1
    else { vq1 with
      queryStates := aset vq1.queryStates queryKey initialQueryState }
  let ev1 := if finalOptions.enabled then [Event.autoFetchScheduled queryKey]
    else []
  let ev2 := if finalOptions.refetchOnWindowFocus then
    [Event.focusListenerAdded queryKey] else []
  if intervalTruthy finalOptions.refetchInterval && finalOptions.enabled then
    let handle := vq2.nextHandle
    ({ vq2 with
        activeTimers := (queryKey, handle) :: vq2.activeTimers
        nextHandle := handle + 1
        intervals := aset vq2.intervals queryKey handle },
     ev1 ++ ev2 ++ [Event.intervalStarted queryKey handle])
  else
    (vq2, ev1 ++ ev2)

/-- `clearInterval(handle)`: the timer with that handle stops running. -/
def clearIntervalTimer (timers : List (String × Nat)) (h : Nat) :
    List (String × Nat) :=
  timers.filter (fun t => t.2 ≠ h)

/-- Is some interval timer with this handle still running. -/
def timerActive (vq : VanillaQuery) (h : Nat) : Bool :=
  vq.activeTimers.any (fun t => t.2 = h)

/-- `removeQueryData(queryKey)`: deletes the cache entry, state, config
and subscriber set, and — when the `intervals` map tracks a handle for
the key — clears that one tracked interval and drops the map entry. -/
def removeQueryData (vq : VanillaQuery) (queryKey : String) : VanillaQuery :=
  let vq1 := { vq with
    cache := aerase vq.cache queryKey
    queryStates := aerase vq.queryStates queryKey
    queryConfigs := aerase vq.queryConfigs queryKey
    subscribers := aerase vq.subscribers queryKey }
  match alookup vq.intervals queryKey with
  | some h => { vq1 with
      activeTimers := clearIntervalTimer vq1.activeTimers h
      intervals := aerase vq1.intervals queryKey }
  | none => vq1

/-- The canonical idle snapshot `clear` delivers to every subscriber (its
literal has no timestamp or counter fields). -/
def resetState : QueryState := defaultIdleState

/-- `clear()`: empties the cache, state and config tables, clears every
interval handle tracked in the `intervals` map, then notifies each
subscriber of each key once with the canonical idle state and drops all
subscriber sets. -/
def clear (vq : VanillaQuery) : VanillaQuery × List Event :=
  let timers := vq.intervals.foldl (fun ts kv => clearIntervalTimer ts kv.2)
    vq.activeTimers
  let events := vq.subscribers.flatMap
    (fun kv => notifyEvents kv.2 kv.1 resetState)
  ({ vq with
      cache := []
      queryStates := []
      queryConfigs := []
      intervals := []
      activeTimers := timers
      subscribers := [] },
   events)

/-- MutationState: per-instance lifecycle state (the `reset` closure field
of the source interface is modelled as the `resetMutation` operation). -/
structure MutationState where
  isIdle : Bool
  isLoading : Bool
  isSuccess : Bool
  isError : Bool
  data : JSVal
  error : Option JSVal
  status : Status
deriving DecidableEq, Repr

/-- Resolved mutation options (`Required<MutationOptions>`). `onMutate` is
modelled as an optional total function from variables to either a context
value or a thrown error (the engine catches and logs the throw); the
other callbacks are modelled by presence and emit events. Mutations do
not retry unless configured: `retry` defaults to `0`. -/
structure MutationOptions where
  onMutate : Option (JSVal → Except JSVal JSVal)
  onSuccess : Bool
  onError : Bool
  onSettled : Bool
  retry : Nat
  retryDelay : RetryDelay

/-- Caller-supplied mutation options with the source defaults applied by
`{...defaultOptions, ...options}`. -/
structure MutationOptionsIn where
  onMutate : Option (JSVal → Except JSVal JSVal)
  onSuccess : Option Bool
  onError : Option Bool
  onSettled : Option Bool
  retry : Option Nat
  retryDelay : Option RetryDelay

/-- The empty mutation options object `{}`. -/
def MutationOptionsIn.empty : MutationOptionsIn :=
  ⟨none, none, none, none, none, none⟩

/-- Mutation option resolution: null callbacks, `retry: 0`, exponential
default delay. -/
def resolveMutationOptions (o : MutationOptionsIn) : MutationOptions where
  onMutate := o.onMutate
  onSuccess := o.onSuccess.getD false
  onError := o.onError.getD false
  onSettled := o.onSettled.getD false
  retry := o.retry.getD 0
  retryDelay := o.retryDelay.getD defaultRetryDelay

/-- The mutation state `useMutation` creates: idle. -/
def initialMutationState : MutationState :=
  { isIdle := true, isLoading := false, isSuccess := false, isError := false,
    data := .undef, error := none, status := .idle }

/-- The `reset()` closure: `setState` back to the idle snapshot (every
field of the partial update literal). -/
def resetMutation (st : MutationState) : MutationState :=
  { st with
    isIdle := true
    isLoading := false
    isSuccess := false
    isError := false
    data := .undef
    error := none
    status := .idle }

/-- Observable events of a mutation instance: subscriber notifications
and lifecycle callbacks (`context` is the value `onMutate` produced,
`undefined` when absent or thrown). -/
inductive MEvent where
  | notify (cb : Nat) (st : MutationState) : MEvent
  | cbSuccess (data : JSVal) (vars : JSVal) (context : JSVal) : MEvent
  | cbError (error : JSVal) (vars : JSVal) (context : JSVal) : MEvent
  | cbSettled (data : Option JSVal) (error : Option JSVal)
      (vars : JSVal) (context : JSVal) : MEvent
deriving DecidableEq, Repr

/-- `mutate(variables)` of a mutation instance created by
`useMutation(mutationFn, options)`. The mutation function is a function
of the variables and the attempt number within this call. Returns the new
instance state, the emitted events, and the settled promise:
`Except.ok data` for a resolution, `Except.error e` for a rejection.
The source returns
`result.success && resultData ? resultData : Promise.reject(result.error)`,
so a success whose data is falsy rejects with `result.error` — which on
the success path was never assigned, i.e. `undefined`. -/
def mutate (mutationFn : JSVal → Nat → Except JSVal JSVal)
    (opts : MutationOptions) (subs : List Nat) (st : MutationState)
    (vars : JSVal) : MutationState × List MEvent × Except JSVal JSVal :=
  let context := match opts.onMutate with
    | some f => match f vars with
      | .ok c => c
      | .error _ => JSVal.undef
    | none => JSVal.undef
  let st1 := { st with isIdle := false, isLoading := true, status := .loading }
  let ev1 := subs.map (fun cb => MEvent.notify cb st1)
  let pair := runRetries (mutationFn vars) opts.retry 0
    (mutationFn vars 0)
  match pair.2 with
  | .ok d =>
      let st2 := { st1 with
        isLoading := false
        isSuccess := true
        isError := false
        data := d
        error := none
        status := .success }
      let ev2 := subs.map (fun cb => MEvent.notify cb st2)
        ++ (if opts.onSuccess then [MEvent.cbSuccess d vars context]
            else [])
        ++ (if opts.onSettled then
              [MEvent.cbSettled (some d) none vars context] else [])
      (st2, ev1 ++ ev2,
       if d.truthy then .ok d else .error JSVal.undef)
  | .error e =>
      let st2 := { st1 with
        isLoading := false
        isSuccess := false
        isError := true
        data := .undef
        error := some e
        status := .error }
      let ev2 := subs.map (fun cb => MEvent.notify cb st2)
        ++ (if opts.onError && e.truthy then
              [MEvent.cbError e vars context] else [])
        ++ (if opts.onSettled then
              [MEvent.cbSettled none (if e.truthy then some e else none)
                vars context] else [])
      (st2, ev1 ++ ev2, .error e)

theorem fetchQuery_found (vq : VanillaQuery) (k : String) (config : QueryConfig)
    (s : QueryState) (hc : alookup vq.queryConfigs k = some config)
    (hs : alookup vq.queryStates k = some s) :
    fetchQuery vq k = fetchBody vq k config s := by
  simp [fetchQuery, hc, hs]

theorem fetchBody_runRetries_allFail (vq : VanillaQuery) (k : String)
    (config : QueryConfig) (e : JSVal)
    (hfail : ∀ i, config.queryFn i = .error e) :
    runRetries (fun i => config.queryFn (callCount vq k + i))
      (resolveMaxRetries config.options.retry) 0
      (config.queryFn (callCount vq k + 0)) =
      (resolveMaxRetries config.options.retry, .error e) := by
  have h := runRetries_allFail (fun i => config.queryFn (callCount vq k + i))
    (resolveMaxRetries config.options.retry)
    (fun i => by simp [hfail, exceptIsOk]) 0 (Nat.zero_le _)
  simpa [hfail] using h

/-- C1: for a key with a registered config whose producer always rejects,
`fetchQuery` invokes the producer exactly `1 + n` times before the state
settles to status `error` with `isError` true, where `n` is the resolved
retry budget: `retry: true` resolves to 3, `retry: false` to 0, and
numeric `retry: n` to `n`. -/
theorem fetch_retry_exhaustion_c1 (vq : VanillaQuery) (k : String)
    (config : QueryConfig) (s : QueryState) (e : JSVal)
    (hc : alookup vq.queryConfigs k = some config)
    (hs : alookup vq.queryStates k = some s)
    (hfail : ∀ i, config.queryFn i = .error e) :
    callCount (fetchQuery vq k).1 k =
      callCount vq k + (1 + resolveMaxRetries config.options.retry)
    ∧ (getQueryState (fetchQuery vq k).1 k).status = .error
    ∧ (getQueryState (fetchQuery vq k).1 k).isError = true
    ∧ resolveMaxRetries (.rbool true) = 3
    ∧ resolveMaxRetries (.rbool false) = 0
    ∧ (∀ n, resolveMaxRetries (.rnum n) = n) := by
  rw [fetchQuery_found vq k config s hc hs]
  have hrun := fetchBody_runRetries_allFail vq k config e hfail
  simp only [fetchBody, hrun]
  refine ⟨?_, ?_, ?_, rfl, rfl, fun n => rfl⟩
  · simp [callCount, alookup_aset_self]
    omega
  · simp [getQueryState, alookup_aset_self, errorStateOf]
  · simp [getQueryState, alookup_aset_self, errorStateOf]

theorem fetchBody_ok_eq (vq : VanillaQuery) (k : String) (config : QueryConfig)
    (s : QueryState) (a : Nat) (v : JSVal)
    (hrun : runRetries (fun i => config.queryFn (callCount vq k + i))
      (resolveMaxRetries config.options.retry) 0
      (config.queryFn (callCount vq k + 0)) = (a, .ok v)) :
    fetchBody vq k config s =
    ({ vq with
        cache := aset vq.cache k ⟨v, vq.now⟩
        queryStates := aset (aset vq.queryStates k (fetchStart s)) k
          (successState v vq.now)
        producerCalls := aset vq.producerCalls k (callCount vq k + a + 1) },
     notifyEvents (subscribersOf vq k) k (fetchStart s)
       ++ notifyEvents (subscribersOf vq k) k (successState v vq.now)
       ++ (if config.options.onSuccess then [Event.cbSuccess k v] else [])
       ++ (if config.options.onSettled then [Event.cbSettled k (some v) none]
           else []),
     some v) := by
  simp only [fetchBody, hrun]

theorem fetchBody_error_eq (vq : VanillaQuery) (k : String)
    (config : QueryConfig) (s : QueryState) (a : Nat) (e : JSVal)
    (hrun : runRetries (fun i => config.queryFn (callCount vq k + i))
      (resolveMaxRetries config.options.retry) 0
      (config.queryFn (callCount vq k + 0)) = (a, .error e)) :
    fetchBody vq k config s =
    ({ vq with
        queryStates := aset (aset vq.queryStates k (fetchStart s)) k
          (errorStateOf (fetchStart s) e vq.now)
        producerCalls := aset vq.producerCalls k (callCount vq k + a + 1) },
     notifyEvents (subscribersOf vq k) k (fetchStart s)
       ++ notifyEvents (subscribersOf vq k) k
           (errorStateOf (fetchStart s) e vq.now)
       ++ (if e.truthy then
             (if config.options.onError then [Event.cbError k e] else [])
             ++ (if config.options.onSettled then
                   [Event.cbSettled k none (some e)] else [])
           else []),
     none) := by
  simp only [fetchBody, hrun]

/-- A producer that always rejects, with the string error value "boom". -/
def alwaysRejects : Nat → Except JSVal JSVal := fun _ => .error (.str "boom")

/-- A producer that always resolves with the string "X". -/
def alwaysResolves : Nat → Except JSVal JSVal := fun _ => .ok (.str "X")

/-- Caller options `{ retry: 2 }`. -/
def retryTwoOptions : QueryOptionsIn :=
  { QueryOptionsIn.empty with retry := some (.rnum 2) }

/-- A client with the key "users" registered to an always-rejecting
producer and `retry: 2`. -/
def c1Client : VanillaQuery :=
  (useQuery VanillaQuery.empty "users" alwaysRejects retryTwoOptions).1

/-- Witness for C1: with `retry: 2` and an always-rejecting producer,
one `fetchQuery` performs exactly 3 producer invocations and settles to
status `error`. -/
theorem fetch_retry_exhaustion_c1_witness :
    callCount (fetchQuery c1Client "users").1 "users" = 3
    ∧ (getQueryState (fetchQuery c1Client "users").1 "users").status =
        Status.error := by
  have h := fetch_retry_exhaustion_c1 c1Client "users"
    ⟨alwaysRejects, resolveOptions retryTwoOptions⟩ initialQueryState
    (.str "boom") rfl rfl (fun i => rfl)
  refine ⟨?_, h.2.1⟩
  rw [h.1]
  decide

/-- C2 (amended): when `fetchQuery` starts a fetch it first notifies every
subscriber with the fetch-start state, whose `status` and `isLoading` are
decided by JS truthiness of the current `data` — `loading` with
`isLoading` true exactly when the current data is falsy (`undefined` or a
falsy shown value such as `0`), not merely when no data exists — while
the data itself is retained and `isFetching` is set. -/
theorem fetch_start_truthiness_c2 (vq : VanillaQuery) (k : String)
    (config : QueryConfig) (s : QueryState)
    (hc : alookup vq.queryConfigs k = some config)
    (hs : alookup vq.queryStates k = some s) :
    (∃ rest, (fetchQuery vq k).2.1 =
      notifyEvents (subscribersOf vq k) k (fetchStart s) ++ rest)
    ∧ (fetchStart s).status =
        (if s.data.truthy then Status.success else Status.loading)
    ∧ (fetchStart s).isLoading = !s.data.truthy
    ∧ (fetchStart s).data = s.data
    ∧ (fetchStart s).isFetching = true := by
  rw [fetchQuery_found vq k config s hc hs]
  refine ⟨?_, rfl, rfl, rfl, rfl⟩
  rcases hpair : runRetries (fun i => config.queryFn (callCount vq k + i))
      (resolveMaxRetries config.options.retry) 0
      (config.queryFn (callCount vq k + 0)) with ⟨a, r⟩
  cases r with
  | ok v =>
      rw [fetchBody_ok_eq vq k config s a v hpair]
      exact ⟨notifyEvents (subscribersOf vq k) k (successState v vq.now)
        ++ ((if config.options.onSuccess then [Event.cbSuccess k v] else [])
          ++ (if config.options.onSettled then
                [Event.cbSettled k (some v) none] else [])),
        by simp⟩
  | error e =>
      rw [fetchBody_error_eq vq k config s a e hpair]
      exact ⟨notifyEvents (subscribersOf vq k) k
          (errorStateOf (fetchStart s) e vq.now)
        ++ (if e.truthy then
              (if config.options.onError then [Event.cbError k e] else [])
              ++ (if config.options.onSettled then
                    [Event.cbSettled k none (some e)] else [])
            else []),
        by simp⟩

/-- Witness for the amended C2 at a concrete input: on the registered
client the first notifications of `fetchQuery` carry the fetch-start
state, and with no data yet it has `isLoading` true. -/
theorem fetch_start_truthiness_c2_witness :
    (∃ rest, (fetchQuery c1Client "users").2.1 =
      notifyEvents (subscribersOf c1Client "users") "users"
        (fetchStart initialQueryState) ++ rest)
    ∧ (fetchStart initialQueryState).isLoading = true := by
  have h := fetch_start_truthiness_c2 c1Client "users"
    ⟨alwaysRejects, resolveOptions retryTwoOptions⟩ initialQueryState rfl rfl
  refine ⟨h.1, ?_⟩
  rw [h.2.2.1]
  decide

/-- A client where the key "k" was registered, then `setQueryData` stored
the falsy value `0` (shown as a success state), then observer 0
subscribed. -/
def c2Client : VanillaQuery :=
  (subscribeToQuery
    ((setQueryData
      ((useQuery VanillaQuery.empty "k" alwaysResolves
        QueryOptionsIn.empty).1) "k" (.num 0)).1) "k" 0).1

/-- Counterexample to C2 as stated: data `0` exists for "k" and has been
shown (`isSuccess` true), yet the next `fetchQuery` enters `loading` with
`isLoading` true — `isLoading` is decided by truthiness, not by "no data
has ever been shown". -/
theorem fetch_start_truthiness_c2_counterexample :
    (getQueryState c2Client "k").data = JSVal.num 0
    ∧ (getQueryState c2Client "k").isSuccess = true
    ∧ (fetchQuery c2Client "k").2.1.head? =
        some (Event.notify "k" 0 (fetchStart (getQueryState c2Client "k")))
    ∧ (fetchStart (getQueryState c2Client "k")).isLoading = true
    ∧ (fetchStart (getQueryState c2Client "k")).status = Status.loading := by
  decide

/-- C7 (amended): `fetchCount` is bumped exactly once per top-level
`fetchQuery` call — the retry loop never touches it — and a failing fetch
keeps the bumped value; but the success state literal omits `fetchCount`,
so a successful fetch resets it to absent instead of retaining the
count. -/
theorem fetch_count_semantics_c7 (vq : VanillaQuery) (k : String)
    (config : QueryConfig) (s : QueryState)
    (hc : alookup vq.queryConfigs k = some config)
    (hs : alookup vq.queryStates k = some s) :
    (fetchStart s).fetchCount = some (s.fetchCount.getD 0 + 1)
    ∧ (getQueryState (fetchQuery vq k).1 k).fetchCount =
        (if (fetchQuery vq k).2.2.isSome then none
         else some (s.fetchCount.getD 0 + 1)) := by
  rw [fetchQuery_found vq k config s hc hs]
  refine ⟨rfl, ?_⟩
  rcases hpair : runRetries (fun i => config.queryFn (callCount vq k + i))
      (resolveMaxRetries config.options.retry) 0
      (config.queryFn (callCount vq k + 0)) with ⟨a, r⟩
  cases r with
  | ok v =>
      rw [fetchBody_ok_eq vq k config s a v hpair]
      simp [getQueryState, alookup_aset_self, successState]
  | error e =>
      rw [fetchBody_error_eq vq k config s a e hpair]
      simp [getQueryState, alookup_aset_self, errorStateOf, fetchStart]

/-- Witness for the amended C7: on the failing client the state after one
fetch carries `fetchCount = 1` (one bump despite 2 retries). -/
theorem fetch_count_semantics_c7_witness :
    (getQueryState (fetchQuery c1Client "users").1 "users").fetchCount =
      some 1 := by
  have h := fetch_count_semantics_c7 c1Client "users"
    ⟨alwaysRejects, resolveOptions retryTwoOptions⟩ initialQueryState rfl rfl
  rw [h.2]
  decide

/-- A client with the key "k" registered to an always-succeeding
producer. -/
def c7Client : VanillaQuery :=
  (useQuery VanillaQuery.empty "k" alwaysResolves QueryOptionsIn.empty).1

/-- Counterexample to C7 as stated: after exactly one completed top-level
fetch (which succeeded, producer invoked once), `fetchCount` is absent
rather than 1 — the success state drops the counter. -/
theorem fetch_count_semantics_c7_counterexample :
    callCount (fetchQuery c7Client "k").1 "k" = 1
    ∧ (getQueryState (fetchQuery c7Client "k").1 "k").isSuccess = true
    ∧ (getQueryState (fetchQuery c7Client "k").1 "k").fetchCount ≠ some 1 := by
  decide

theorem fetchQuery_ok_parts (vq : VanillaQuery) (k : String)
    (config : QueryConfig) (s : QueryState) (a : Nat) (v : JSVal)
    (hc : alookup vq.queryConfigs k = some config)
    (hs : alookup vq.queryStates k = some s)
    (hrun : runRetries (fun i => config.queryFn (callCount vq k + i))
      (resolveMaxRetries config.options.retry) 0
      (config.queryFn (callCount vq k + 0)) = (a, .ok v)) :
    (fetchQuery vq k).1.cache = aset vq.cache k ⟨v, vq.now⟩
    ∧ (fetchQuery vq k).1.queryConfigs = vq.queryConfigs
    ∧ alookup (fetchQuery vq k).1.queryStates k = some (successState v vq.now)
    ∧ callCount (fetchQuery vq k).1 k = callCount vq k + a + 1
    ∧ (fetchQuery vq k).1.now = vq.now
    ∧ (fetchQuery vq k).1.subscribers = vq.subscribers
    ∧ (fetchQuery vq k).2.2 = some v := by
  rw [fetchQuery_found vq k config s hc hs, fetchBody_ok_eq vq k config s a v hrun]
  refine ⟨rfl, rfl, ?_, ?_, rfl, rfl, rfl⟩
  · exact alookup_aset_self _ _ _
  · simp [callCount, alookup_aset_self]

theorem fetchQuery_error_parts (vq : VanillaQuery) (k : String)
    (config : QueryConfig) (s : QueryState) (a : Nat) (e : JSVal)
    (hc : alookup vq.queryConfigs k = some config)
    (hs : alookup vq.queryStates k = some s)
    (hrun : runRetries (fun i => config.queryFn (callCount vq k + i))
      (resolveMaxRetries config.options.retry) 0
      (config.queryFn (callCount vq k + 0)) = (a, .error e)) :
    (fetchQuery vq k).1.cache = vq.cache
    ∧ (fetchQuery vq k).1.queryConfigs = vq.queryConfigs
    ∧ alookup (fetchQuery vq k).1.queryStates k =
        some (errorStateOf (fetchStart s) e vq.now)
    ∧ callCount (fetchQuery vq k).1 k = callCount vq k + a + 1
    ∧ (fetchQuery vq k).1.now = vq.now
    ∧ (fetchQuery vq k).1.subscribers = vq.subscribers
    ∧ (fetchQuery vq k).2.2 = none := by
  rw [fetchQuery_found vq k config s hc hs, fetchBody_error_eq vq k config s a e hrun]
  refine ⟨rfl, rfl, ?_, ?_, rfl, rfl, rfl⟩
  · exact alookup_aset_self _ _ _
  · simp [callCount, alookup_aset_self]

/-- C4: after a fetch that succeeded with value V for a key (producer
succeeds on its first invocation), a subsequent `refetchQuery` whose
producer now rejects every attempt leaves the cache entry unchanged —
`getQueryData` still returns V — while the query state is set to status
`error` with `isError` true, `isLoading` false, `isFetching` false, and
`errorUpdatedAt` set. -/
theorem cache_survives_failed_refetch_c4 (vq : VanillaQuery) (k : String)
    (config : QueryConfig) (s : QueryState) (V e : JSVal)
    (hc : alookup vq.queryConfigs k = some config)
    (hs : alookup vq.queryStates k = some s)
    (hcalls : callCount vq k = 0)
    (hok : config.queryFn 0 = .ok V)
    (hfail : ∀ i, 1 ≤ i → config.queryFn i = .error e) :
    getQueryData (refetchQuery (fetchQuery vq k).1 k).1 k = some V
    ∧ (getQueryState (refetchQuery (fetchQuery vq k).1 k).1 k).status =
        Status.error
    ∧ (getQueryState (refetchQuery (fetchQuery vq k).1 k).1 k).isError = true
    ∧ (getQueryState (refetchQuery (fetchQuery vq k).1 k).1 k).isLoading = false
    ∧ (getQueryState (refetchQuery (fetchQuery vq k).1 k).1 k).isFetching = false
    ∧ (getQueryState (refetchQuery (fetchQuery vq k).1 k).1 k).errorUpdatedAt =
        some vq.now := by
  simp only [refetchQuery]
  have h00 : config.queryFn (callCount vq k + 0) = .ok V := by
    rw [hcalls]
    exact hok
  have hrun1 : runRetries (fun i => config.queryFn (callCount vq k + i))
      (resolveMaxRetries config.options.retry) 0
      (config.queryFn (callCount vq k + 0)) = (0, .ok V) := by
    rw [h00]
    exact runRetries_ok _ _ _ _
  have p1 := fetchQuery_ok_parts vq k config s 0 V hc hs hrun1
  have hc2 : alookup (fetchQuery vq k).1.queryConfigs k = some config := by
    rw [p1.2.1]
    exact hc
  have hs2 : alookup (fetchQuery vq k).1.queryStates k =
      some (successState V vq.now) := p1.2.2.1
  have hcalls2 : callCount (fetchQuery vq k).1 k = 1 := by
    rw [p1.2.2.2.1, hcalls]
  have hfail2 : ∀ i, exceptIsOk
      (config.queryFn (callCount (fetchQuery vq k).1 k + i)) = false := by
    intro i
    rw [hcalls2, hfail (1 + i) (by omega)]
    rfl
  have hgm : config.queryFn (callCount (fetchQuery vq k).1 k +
      resolveMaxRetries config.options.retry) = .error e := by
    rw [hcalls2]
    exact hfail (1 + resolveMaxRetries config.options.retry) (by omega)
  have hrun2 : runRetries
      (fun i => config.queryFn (callCount (fetchQuery vq k).1 k + i))
      (resolveMaxRetries config.options.retry) 0
      (config.queryFn (callCount (fetchQuery vq k).1 k + 0)) =
      (resolveMaxRetries config.options.retry, .error e) := by
    have h := runRetries_allFail
      (fun i => config.queryFn (callCount (fetchQuery vq k).1 k + i))
      (resolveMaxRetries config.options.retry) hfail2 0 (Nat.zero_le _)
    simpa [hgm] using h
  have p2 := fetchQuery_error_parts (fetchQuery vq k).1 k config
    (successState V vq.now) (resolveMaxRetries config.options.retry) e
    hc2 hs2 hrun2
  refine ⟨?_, ?_, ?_, ?_, ?_, ?_⟩
  · simp [getQueryData, p2.1, p1.1, alookup_aset_self]
  · simp [getQueryState, p2.2.2.1, errorStateOf]
  · simp [getQueryState, p2.2.2.1, errorStateOf]
  · simp [getQueryState, p2.2.2.1, errorStateOf]
  · simp [getQueryState, p2.2.2.1, errorStateOf]
  · simp [getQueryState, p2.2.2.1, errorStateOf, p1.2.2.2.2.1]

/-- A producer that resolves with "X" on its first invocation and rejects
with "boom" on every later one. -/
def succeedsThenRejects : Nat → Except JSVal JSVal :=
  fun i => if i = 0 then .ok (.str "X") else .error (.str "boom")

/-- A client with the key "k" registered to `succeedsThenRejects`. -/
def c4Client : VanillaQuery :=
  (useQuery VanillaQuery.empty "k" succeedsThenRejects QueryOptionsIn.empty).1

/-- Witness for C4: concrete successful fetch of "X" followed by a
failing refetch — the cached "X" survives and the state is an error. -/
theorem cache_survives_failed_refetch_c4_witness :
    getQueryData (refetchQuery (fetchQuery c4Client "k").1 "k").1 "k" =
      some (.str "X")
    ∧ (getQueryState (refetchQuery (fetchQuery c4Client "k").1 "k").1
        "k").isError = true := by
  have h := cache_survives_failed_refetch_c4 c4Client "k"
    ⟨succeedsThenRejects, resolveOptions QueryOptionsIn.empty⟩
    initialQueryState (.str "X") (.str "boom") rfl rfl rfl rfl
    (fun i hi => by
      simp only [succeedsThenRejects]
      rw [if_neg (by omega)])
  exact ⟨h.1, h.2.2.1⟩

/-- C6: for a key with a registered config and existing state,
`fetchQuery` resolves with the fetched data when the producer first
succeeds at some attempt within the retry budget, and resolves with
nothing when every attempt fails — the failure is recorded in the error
state for the key, never surfaced as a rejection (the embedded
`fetchQuery` is a total function returning `Option`, with the configured
callbacks modelled as non-throwing observers). -/
theorem fetch_resolution_c6 (vq : VanillaQuery) (k : String)
    (config : QueryConfig) (s : QueryState)
    (hc : alookup vq.queryConfigs k = some config)
    (hs : alookup vq.queryStates k = some s) :
    ((∀ i, exceptIsOk (config.queryFn (callCount vq k + i)) = false) →
      (fetchQuery vq k).2.2 = none
      ∧ (getQueryState (fetchQuery vq k).1 k).isError = true
      ∧ (getQueryState (fetchQuery vq k).1 k).status = Status.error)
    ∧ (∀ j v, j ≤ resolveMaxRetries config.options.retry →
        (∀ i, i < j →
          exceptIsOk (config.queryFn (callCount vq k + i)) = false) →
        config.queryFn (callCount vq k + j) = .ok v →
        (fetchQuery vq k).2.2 = some v) := by
  constructor
  · intro hallfail
    cases hgm : config.queryFn (callCount vq k +
        resolveMaxRetries config.options.retry) with
    | ok v =>
        have h := hallfail (resolveMaxRetries config.options.retry)
        rw [hgm] at h
        simp [exceptIsOk] at h
    | error e =>
        have hrun : runRetries
            (fun i => config.queryFn (callCount vq k + i))
            (resolveMaxRetries config.options.retry) 0
            (config.queryFn (callCount vq k + 0)) =
            (resolveMaxRetries config.options.retry, .error e) := by
          have h := runRetries_allFail
            (fun i => config.queryFn (callCount vq k + i))
            (resolveMaxRetries config.options.retry) hallfail 0 (Nat.zero_le _)
          simpa [hgm] using h
        have p := fetchQuery_error_parts vq k config s
          (resolveMaxRetries config.options.retry) e hc hs hrun
        refine ⟨p.2.2.2.2.2.2, ?_, ?_⟩
        · simp [getQueryState, p.2.2.1, errorStateOf]
        · simp [getQueryState, p.2.2.1, errorStateOf]
  · intro j v hj hbefore hok
    have hrun : runRetries (fun i => config.queryFn (callCount vq k + i))
        (resolveMaxRetries config.options.retry) 0
        (config.queryFn (callCount vq k + 0)) = (j, .ok v) := by
      exact runRetries_firstSuccess _ (resolveMaxRetries config.options.retry)
        j v hj (fun i hi => hbefore i hi) hok 0 (Nat.zero_le _)
    have p := fetchQuery_ok_parts vq k config s j v hc hs hrun
    exact p.2.2.2.2.2.2

/-- Witness for C6: the always-failing client resolves with nothing; the
always-succeeding client resolves with the data "X". -/
theorem fetch_resolution_c6_witness :
    (fetchQuery c1Client "users").2.2 = none
    ∧ (fetchQuery c7Client "k").2.2 = some (.str "X") := by
  have h1 := fetch_resolution_c6 c1Client "users"
    ⟨alwaysRejects, resolveOptions retryTwoOptions⟩ initialQueryState rfl rfl
  have h2 := fetch_resolution_c6 c7Client "k"
    ⟨alwaysResolves, resolveOptions QueryOptionsIn.empty⟩ initialQueryState
    rfl rfl
  exact ⟨(h1.1 (fun i => rfl)).1,
    h2.2 0 (.str "X") (Nat.zero_le _)
      (fun i hi => absurd hi (Nat.not_lt_zero i)) rfl⟩

/-- C10: after a fetch that succeeded with value V (cached), calling
`invalidateQuery` when the producer now rejects every attempt leaves
`getQueryData` absent — the cache entry is deleted before the refetch and
not restored on failure — while the resulting error state still carries
the previous data V in its `data` field; asymmetric with a plain failing
`refetchQuery`, which preserves the cache entry. -/
theorem invalidate_failure_asymmetry_c10 (vq : VanillaQuery) (k : String)
    (config : QueryConfig) (s : QueryState) (V e : JSVal)
    (hc : alookup vq.queryConfigs k = some config)
    (hs : alookup vq.queryStates k = some s)
    (hcalls : callCount vq k = 0)
    (hok : config.queryFn 0 = .ok V)
    (hfail : ∀ i, 1 ≤ i → config.queryFn i = .error e) :
    getQueryData (invalidateQuery (fetchQuery vq k).1 k).1 k = none
    ∧ (getQueryState (invalidateQuery (fetchQuery vq k).1 k).1 k).data = V
    ∧ (getQueryState (invalidateQuery (fetchQuery vq k).1 k).1 k).status =
        Status.error
    ∧ (getQueryState (invalidateQuery (fetchQuery vq k).1 k).1 k).isError =
        true
    ∧ getQueryData (refetchQuery (fetchQuery vq k).1 k).1 k = some V := by
  have h00 : config.queryFn (callCount vq k + 0) = .ok V := by
    rw [hcalls]
    exact hok
  have hrun1 : runRetries (fun i => config.queryFn (callCount vq k + i))
      (resolveMaxRetries config.options.retry) 0
      (config.queryFn (callCount vq k + 0)) = (0, .ok V) := by
    rw [h00]
    exact runRetries_ok _ _ _ _
  have p1 := fetchQuery_ok_parts vq k config s 0 V hc hs hrun1
  have hc2 : alookup (fetchQuery vq k).1.queryConfigs k = some config := by
    rw [p1.2.1]
    exact hc
  have hs2 : alookup (fetchQuery vq k).1.queryStates k =
      some (successState V vq.now) := p1.2.2.1
  have hcalls2 : callCount (fetchQuery vq k).1 k = 1 := by
    rw [p1.2.2.2.1, hcalls]
  have hfail2 : ∀ i, exceptIsOk
      (config.queryFn (callCount (fetchQuery vq k).1 k + i)) = false := by
    intro i
    rw [hcalls2, hfail (1 + i) (by omega)]
    rfl
  have hgm : config.queryFn (callCount (fetchQuery vq k).1 k +
      resolveMaxRetries config.options.retry) = .error e := by
    rw [hcalls2]
    exact hfail (1 + resolveMaxRetries config.options.retry) (by omega)
  have hrun2 : runRetries
      (fun i => config.queryFn (callCount (fetchQuery vq k).1 k + i))
      (resolveMaxRetries config.options.retry) 0
      (config.queryFn (callCount (fetchQuery vq k).1 k + 0)) =
      (resolveMaxRetries config.options.retry, .error e) := by
    have h := runRetries_allFail
      (fun i => config.queryFn (callCount (fetchQuery vq k).1 k + i))
      (resolveMaxRetries config.options.retry) hfail2 0 (Nat.zero_le _)
    simpa [hgm] using h
  have p2 := fetchQuery_error_parts (fetchQuery vq k).1 k config
    (successState V vq.now) (resolveMaxRetries config.options.retry) e
    hc2 hs2 hrun2
  have p2i := fetchQuery_error_parts
    { (fetchQuery vq k).1 with cache := aerase (fetchQuery vq k).1.cache k } k
    config (successState V vq.now) (resolveMaxRetries config.options.retry) e
    hc2 hs2 hrun2
  simp only [invalidateQuery, refetchQuery]
  refine ⟨?_, ?_, ?_, ?_, ?_⟩
  · simp [getQueryData, p2i.1, alookup_aerase_self]
  · simp [getQueryState, p2i.2.2.1, errorStateOf, fetchStart, successState]
  · simp [getQueryState, p2i.2.2.1, errorStateOf]
  · simp [getQueryState, p2i.2.2.1, errorStateOf]
  · simp [getQueryData, p2.1, p1.1, alookup_aset_self]

/-- C5 (amended): `mutate` rejects with the error E whenever the mutation
function fails every attempt, with `isError` true in the settled state;
when the mutation succeeds (first success at attempt j within the retry
budget) the state records success with the data, but the returned promise
resolves with the data only when the data is JS-truthy — a falsy success
value makes `mutate` reject with `undefined` instead. -/
theorem mutate_settlement_c5 (mutationFn : JSVal → Nat → Except JSVal JSVal)
    (opts : MutationOptions) (subs : List Nat) (st : MutationState)
    (vars : JSVal) :
    (∀ e, (∀ i, mutationFn vars i = .error e) →
      (mutate mutationFn opts subs st vars).2.2 = .error e
      ∧ (mutate mutationFn opts subs st vars).1.isError = true
      ∧ (mutate mutationFn opts subs st vars).1.status = Status.error)
    ∧ (∀ j d, j ≤ opts.retry →
        (∀ i, i < j → exceptIsOk (mutationFn vars i) = false) →
        mutationFn vars j = .ok d →
        (mutate mutationFn opts subs st vars).2.2 =
          (if d.truthy then .ok d else .error JSVal.undef)
        ∧ (mutate mutationFn opts subs st vars).1.isSuccess = true
        ∧ (mutate mutationFn opts subs st vars).1.data = d) := by
  constructor
  · intro e hfaile
    have hfail' : ∀ i, exceptIsOk (mutationFn vars i) = false := by
      intro i
      rw [hfaile i]
      rfl
    have hrun : runRetries (mutationFn vars) opts.retry 0
        (mutationFn vars 0) = (opts.retry, .error e) := by
      have h := runRetries_allFail (mutationFn vars) opts.retry hfail' 0
        (Nat.zero_le _)
      rwa [hfaile opts.retry] at h
    simp only [mutate, hrun]
    simp
  · intro j d hj hbefore hok
    have hrun : runRetries (mutationFn vars) opts.retry 0
        (mutationFn vars 0) = (j, .ok d) :=
      runRetries_firstSuccess _ opts.retry j d hj hbefore hok 0 (Nat.zero_le _)
    simp only [mutate, hrun]
    simp

/-- A mutation function that always rejects with the error "E". -/
def mutationAlwaysRejects : JSVal → Nat → Except JSVal JSVal :=
  fun _ _ => .error (.str "E")

/-- A mutation function that always resolves with the falsy value `0`. -/
def mutationResolvesZero : JSVal → Nat → Except JSVal JSVal :=
  fun _ _ => .ok (.num 0)

/-- Witness for C5: a mutation whose function always rejects with "E"
yields a rejection with "E" and an error state. -/
theorem mutate_settlement_c5_witness :
    (mutate mutationAlwaysRejects
      (resolveMutationOptions MutationOptionsIn.empty) [] initialMutationState
      .null).2.2 = .error (.str "E")
    ∧ (mutate mutationAlwaysRejects
      (resolveMutationOptions MutationOptionsIn.empty) [] initialMutationState
      .null).1.isError = true := by
  have h := (mutate_settlement_c5 mutationAlwaysRejects
    (resolveMutationOptions MutationOptionsIn.empty) [] initialMutationState
    .null).1 (.str "E") (fun i => rfl)
  exact ⟨h.1, h.2.1⟩

/-- Counterexample to C5 as stated: a mutation function resolving with
the falsy value `0` succeeds — the state records success with data 0 —
yet the promise `mutate` returned rejects (with `undefined`) instead of
resolving with the result data. -/
theorem mutate_settlement_c5_counterexample :
    (mutate mutationResolvesZero
      (resolveMutationOptions MutationOptionsIn.empty) [] initialMutationState
      .null).2.2 = .error JSVal.undef
    ∧ (mutate mutationResolvesZero
      (resolveMutationOptions MutationOptionsIn.empty) [] initialMutationState
      .null).1.isSuccess = true
    ∧ (mutate mutationResolvesZero
      (resolveMutationOptions MutationOptionsIn.empty) [] initialMutationState
      .null).1.data = JSVal.num 0 := by
  decide

/-- C3 evaluated at the failing input: on a fresh client whose key was
never registered through `useQuery`/`setQueryData`, `prefetchQuery`
stores the config but — because it never seeds a query state and
`fetchQuery` returns early when no state exists — resolves with nothing,
never invokes the producer, and writes no cache entry. -/
theorem prefetch_unregistered_key_c3 :
    (prefetchQuery VanillaQuery.empty "users" alwaysResolves
      QueryOptionsIn.empty).2.2 = none
    ∧ getQueryData (prefetchQuery VanillaQuery.empty "users" alwaysResolves
        QueryOptionsIn.empty).1 "users" = none
    ∧ callCount (prefetchQuery VanillaQuery.empty "users" alwaysResolves
        QueryOptionsIn.empty).1 "users" = 0
    ∧ (alookup (prefetchQuery VanillaQuery.empty "users" alwaysResolves
        QueryOptionsIn.empty).1.queryConfigs "users").isSome = true
    ∧ (prefetchQuery VanillaQuery.empty "users" alwaysResolves
        QueryOptionsIn.empty).2.1 = [] := by
  decide

/-- Witness for C10: on the concrete client, `invalidateQuery` with the
now-failing producer leaves the cache empty while the error state still
carries the previously fetched "X". -/
theorem invalidate_failure_asymmetry_c10_witness :
    getQueryData (invalidateQuery (fetchQuery c4Client "k").1 "k").1 "k" = none
    ∧ (getQueryState (invalidateQuery (fetchQuery c4Client "k").1 "k").1
        "k").data = JSVal.str "X"
    ∧ getQueryData (refetchQuery (fetchQuery c4Client "k").1 "k").1 "k" =
        some (.str "X") := by
  have h := invalidate_failure_asymmetry_c10 c4Client "k"
    ⟨succeedsThenRejects, resolveOptions QueryOptionsIn.empty⟩
    initialQueryState (.str "X") (.str "boom") rfl rfl rfl rfl
    (fun i hi => by
      simp only [succeedsThenRejects]
      rw [if_neg (by omega)])
  exact ⟨h.1, h.2.1, h.2.2.2.2⟩

theorem any_clearInterval_self (ts : List (String × Nat)) (h : Nat) :
    (clearIntervalTimer ts h).any (fun t => t.2 = h) = false := by
  simp [clearIntervalTimer, List.any_eq_true, List.mem_filter]

theorem any_clearInterval_mono (ts : List (String × Nat)) (h h' : Nat)
    (hts : ts.any (fun t => t.2 = h) = false) :
    (clearIntervalTimer ts h').any (fun t => t.2 = h) = false := by
  simp [clearIntervalTimer, List.any_eq_true, List.mem_filter] at hts ⊢
  intro a b hmem hb
  exact hts a b hmem

/-- C8 (amended): per key the `intervals` map tracks exactly the most
recently created handle — a registration with a truthy `refetchInterval`
(and enabled) overwrites the map entry with the fresh handle and starts a
new timer, and `removeQueryData` cancels the tracked handle — but the
registration does not cancel the previously scheduled interval for the
key: every timer active before re-registration is still active after it,
so the prior timer handle leaks. -/
theorem interval_tracking_c8 (vq : VanillaQuery) (k : String)
    (queryFn : Nat → Except JSVal JSVal) (options : QueryOptionsIn)
    (hint : intervalTruthy (resolveOptions options).refetchInterval = true)
    (hen : (resolveOptions options).enabled = true) :
    alookup (useQuery vq k queryFn options).1.intervals k = some vq.nextHandle
    ∧ (useQuery vq k queryFn options).1.activeTimers =
        (k, vq.nextHandle) :: vq.activeTimers
    ∧ (∀ h, timerActive vq h = true →
        timerActive (useQuery vq k queryFn options).1 h = true)
    ∧ timerActive (removeQueryData (useQuery vq k queryFn options).1 k)
        vq.nextHandle = false := by
  have hact : (useQuery vq k queryFn options).1.activeTimers =
      (k, vq.nextHandle) :: vq.activeTimers := by
    by_cases hst : (alookup vq.queryStates k).isSome <;>
      simp [useQuery, hint, hen, hst]
  have hmap : alookup (useQuery vq k queryFn options).1.intervals k =
      some vq.nextHandle := by
    by_cases hst : (alookup vq.queryStates k).isSome <;>
      simp [useQuery, hint, hen, hst, alookup_aset_self]
  refine ⟨hmap, hact, ?_, ?_⟩
  · intro h hh
    simp only [timerActive, hact, List.any_cons]
    simp only [timerActive] at hh
    simp [hh]
  · simp only [removeQueryData, hmap]
    simp [timerActive, any_clearInterval_self]

/-- Caller options `{ refetchInterval: 5 }`. -/
def intervalOptions : QueryOptionsIn :=
  { QueryOptionsIn.empty with refetchInterval := some (some 5) }

/-- A client after one registration of "k" with a recurring interval. -/
def c8Client1 : VanillaQuery :=
  (useQuery VanillaQuery.empty "k" alwaysResolves intervalOptions).1

/-- The same client after re-registering "k" with a recurring interval:
the first timer (handle 0) is still active alongside the new one. -/
def c8Client2 : VanillaQuery :=
  (useQuery c8Client1 "k" alwaysResolves intervalOptions).1

/-- Witness for the amended C8: re-registration tracks the new handle 1,
keeps timer 0 alive, and `removeQueryData` cancels the tracked handle. -/
theorem interval_tracking_c8_witness :
    alookup c8Client2.intervals "k" = some 1
    ∧ c8Client2.activeTimers = [("k", 1), ("k", 0)]
    ∧ timerActive (removeQueryData c8Client2 "k") 1 = false := by
  have h := interval_tracking_c8 c8Client1 "k" alwaysResolves intervalOptions
    rfl rfl
  exact ⟨h.1, h.2.1, h.2.2.2⟩

/-- Counterexample to C8 as stated: after registering "k" twice with
`refetchInterval`, two interval timers for "k" are active at once, and
removing the key cancels only the tracked (second) one — the first timer
handle is leaked. -/
theorem interval_tracking_c8_counterexample :
    (c8Client2.activeTimers.filter (fun t => t.1 = "k")).length = 2
    ∧ timerActive c8Client2 0 = true
    ∧ timerActive c8Client2 1 = true
    ∧ timerActive (removeQueryData c8Client2 "k") 0 = true := by
  decide

theorem alookup_mem {α : Type} (l : List (String × α)) (k : String) (v : α)
    (h : alookup l k = some v) : ∃ p ∈ l, p.1 = k ∧ p.2 = v := by
  induction l with
  | nil => simp [alookup] at h
  | cons hd t ih =>
      by_cases hk : hd.1 = k
      · simp [alookup, hk] at h
        exact ⟨hd, by simp, hk, h⟩
      · simp [alookup, hk] at h
        obtain ⟨p, hp, hpk, hpv⟩ := ih h
        exact ⟨p, by simp [hp], hpk, hpv⟩

theorem alookup_mem_values {α : Type} (l : List (String × α)) (k : String)
    (v : α) (h : alookup l k = some v) : v ∈ l.map Prod.snd := by
  obtain ⟨p, hp, _, hpv⟩ := alookup_mem l k v h
  exact hpv ▸ List.mem_map_of_mem Prod.snd hp

theorem foldl_clear_preserves (hs : List (String × Nat))
    (ts : List (String × Nat)) (h : Nat)
    (hts : ts.any (fun t => t.2 = h) = false) :
    (hs.foldl (fun acc kv => clearIntervalTimer acc kv.2) ts).any
      (fun t => t.2 = h) = false := by
  induction hs generalizing ts with
  | nil => exact hts
  | cons hd tl ih => exact ih _ (any_clearInterval_mono _ _ _ hts)

theorem foldl_clear_of_mem (hs : List (String × Nat))
    (ts : List (String × Nat)) (h : Nat) (hmem : h ∈ hs.map Prod.snd) :
    (hs.foldl (fun acc kv => clearIntervalTimer acc kv.2) ts).any
      (fun t => t.2 = h) = false := by
  induction hs generalizing ts with
  | nil => simp at hmem
  | cons hd tl ih =>
      simp only [List.foldl_cons]
      rcases (by simpa using hmem : h = hd.2 ∨ ∃ a, (a, h) ∈ tl) with h1 | h2
      · rw [h1]
        exact foldl_clear_preserves tl _ hd.2 (any_clearInterval_self ts hd.2)
      · obtain ⟨a, ha⟩ := h2
        exact ih _ (List.mem_map.mpr ⟨(a, h), ha, rfl⟩)

theorem count_notify_same (cbs : List Nat) (k : String) (cb : Nat) :
    (notifyEvents cbs k resetState).count (Event.notify k cb resetState) =
      cbs.count cb := by
  have hinj : Function.Injective (fun c => Event.notify k c resetState) := by
    intro a b hab
    simpa using hab
  simpa [notifyEvents] using
    List.count_map_of_injective cbs (fun c => Event.notify k c resetState)
      hinj cb

theorem count_notify_ne_key (cbs : List Nat) (k' k : String) (cb : Nat)
    (hne : k' ≠ k) :
    (notifyEvents cbs k' resetState).count (Event.notify k cb resetState) =
      0 := by
  apply List.count_eq_zero_of_not_mem
  simp [notifyEvents, Event.notify.injEq, hne]

theorem count_flatMap_zero (t : List (String × List Nat)) (k : String)
    (cb : Nat) (hk : k ∉ t.map Prod.fst) :
    (t.flatMap (fun kv => notifyEvents kv.2 kv.1 resetState)).count
      (Event.notify k cb resetState) = 0 := by
  induction t with
  | nil => rfl
  | cons hd tl ih =>
      simp only [List.flatMap_cons, List.count_append]
      have h1 : hd.1 ≠ k := by
        intro hcontra
        exact hk (by simp [hcontra])
      rw [count_notify_ne_key _ _ _ _ h1, ih (fun hmem => hk (by simp [hmem]))]

theorem count_clear_notify (l : List (String × List Nat)) (k : String)
    (cbs : List Nat) (cb : Nat) (hkeys : (l.map Prod.fst).Nodup)
    (hfound : alookup l k = some cbs) (hcb : cb ∈ cbs) (hnd : cbs.Nodup) :
    (l.flatMap (fun kv => notifyEvents kv.2 kv.1 resetState)).count
      (Event.notify k cb resetState) = 1 := by
  induction l with
  | nil => simp [alookup] at hfound
  | cons hd tl ih =>
      simp only [List.flatMap_cons, List.count_append]
      rw [List.map_cons, List.nodup_cons] at hkeys
      by_cases hk : hd.1 = k
      · have hcbs : hd.2 = cbs := by simpa [alookup, hk] using hfound
        have hknot : k ∉ tl.map Prod.fst := hk ▸ hkeys.1
        rw [count_flatMap_zero tl k cb hknot, hk, hcbs,
          count_notify_same cbs k cb, List.count_eq_one_of_mem hnd hcb]
      · have hfound' : alookup tl k = some cbs := by
          simpa [alookup, hk] using hfound
        rw [count_notify_ne_key _ _ _ _ hk, ih hkeys.2 hfound']

/-- C9 (amended): `clear` empties the cache, state, config and interval
tables — `getQueryData` returns absent for every key afterwards — cancels
every interval handle tracked in the `intervals` map, and notifies each
subscriber of each key exactly once with the canonical idle state before
dropping all subscriber sets; however, interval timers whose handles were
leaked by re-registration (and are no longer tracked in the map) are not
cancelled by `clear`. -/
theorem clear_semantics_c9 (vq : VanillaQuery)
    (hkeys : (vq.subscribers.map Prod.fst).Nodup)
    (hnd : ∀ kv ∈ vq.subscribers, (kv.2 : List Nat).Nodup) :
    (∀ k cbs cb, alookup vq.subscribers k = some cbs → cb ∈ cbs →
      (clear vq).2.count (Event.notify k cb resetState) = 1)
    ∧ (clear vq).1.cache = []
    ∧ (clear vq).1.queryStates = []
    ∧ (clear vq).1.queryConfigs = []
    ∧ (clear vq).1.intervals = []
    ∧ (clear vq).1.subscribers = []
    ∧ (∀ k, getQueryData (clear vq).1 k = none)
    ∧ (∀ k h, alookup vq.intervals k = some h →
        timerActive (clear vq).1 h = false) := by
  refine ⟨?_, rfl, rfl, rfl, rfl, rfl, ?_, ?_⟩
  · intro k cbs cb hfound hcb
    have hnodup : cbs.Nodup := by
      obtain ⟨p, hp, _, hpv⟩ := alookup_mem vq.subscribers k cbs hfound
      exact hpv ▸ hnd p hp
    exact count_clear_notify vq.subscribers k cbs cb hkeys hfound hcb hnodup
  · intro k
    simp [getQueryData, clear, alookup]
  · intro k h hfound
    have hmem : h ∈ vq.intervals.map Prod.snd :=
      alookup_mem_values _ _ _ hfound
    exact foldl_clear_of_mem vq.intervals vq.activeTimers h hmem

/-- A client with the key "k" registered and observer 0 subscribed. -/
def c9Client : VanillaQuery := (subscribeToQuery c7Client "k" 0).1

/-- Witness for the amended C9: the subscribed observer receives exactly
one idle-state notification from `clear` and the cache is gone. -/
theorem clear_semantics_c9_witness :
    (clear c9Client).2.count (Event.notify "k" 0 resetState) = 1
    ∧ getQueryData (clear c9Client).1 "k" = none := by
  have h := clear_semantics_c9 c9Client (by decide) (by decide)
  exact ⟨h.1 "k" [0] 0 rfl (by decide), h.2.2.2.2.2.2.1 "k"⟩

/-- Counterexample to C9 as stated: on the doubly-registered client the
interval timer leaked by re-registration (handle 0) is still active after
`clear` — not every interval timer is removed. -/
theorem clear_semantics_c9_counterexample :
    timerActive (clear c8Client2).1 0 = true
    ∧ (clear c8Client2).1.activeTimers = [("k", 0)] := by
  decide
